import Mathlib

/-!
Verification of the backend startup and routing logic of
`src/backend/server.js` (ecs-deployment-three-tier).

The JavaScript source is shallowly embedded: each function of the source is
translated to a Lean definition over explicit inputs standing for the
outcomes of external calls (the SSM parameter store, the MySQL driver).
Side effects that the claims talk about (opening and closing the bootstrap
connection, sleeping between retry attempts, re-invoking the parameter
fetcher) are recorded as explicit event traces.
-/

/-- A JSON-like value, the shape of the bodies produced by `res.json`.
Object fields are kept in insertion order; `undefined`-valued fields of the
source are simply absent, matching what JSON serialization produces. -/
inductive JVal where
  | str (s : String)
  | num (n : Nat)
  | obj (fields : List (String × JVal))
  | arr (elems : List JVal)

/-- Field lookup in a JSON object value (first match). -/
def JVal.getField : JVal → String → Option JVal
  | JVal.obj fields, key => (fields.find? (fun f => f.1 == key)).map (·.2)
  | _, _ => none

/-- An HTTP response: status code plus JSON body. -/
structure Response where
  status : Nat
  body : JVal

/-! ## Parameter fetcher (`getDBConfig`, server.js lines 17–40) -/

/-- One entry of the SSM `GetParameters` response: a full parameter name
such as `/myapp/db/host` together with its (decrypted) string value. -/
structure SSMParam where
  name : String
  value : String
deriving DecidableEq, Repr

/-- Splitting a character list on a separator character, with the
semantics of the JavaScript single-character `split`: `"".split("/")` is
`[""]`, separators at either end produce empty segments. -/
def splitOnChar (c : Char) : List Char → List (List Char)
  | [] => [[]]
  | x :: xs =>
    let r := splitOnChar c xs
    if x = c then [] :: r
    else
      match r with
      | [] => [[x]]
      | seg :: segs => (x :: seg) :: segs

/-- Model of `p.Name.split("/").pop()` in the source: the last
`/`-separated segment of a parameter name. `splitOnChar` never returns
`[]`, so the default of `getLastD` is never used. -/
def lastSegment (s : String) : String :=
  String.mk ((splitOnChar '/' s.data).getLastD [])

/-- The source builds `params` by `forEach` assignment
(`params[p.Name.split("/").pop()] = p.Value`), so for a given short key the
LAST response entry with that basename wins; a key never assigned is
`undefined`, modelled as `none`. -/
def paramLookup (key : String) (ps : List SSMParam) : Option String :=
  ps.foldl (fun acc p => if lastSegment p.name == key then some p.value else acc) none

/-- JavaScript truthiness of a possibly-undefined string: `undefined` and
the empty string are falsy, every other string is truthy. -/
def truthy : Option String → Bool
  | none => false
  | some s => !s.isEmpty

/-- The validated database configuration returned by `getDBConfig`. -/
structure DBConfig where
  host : String
  user : String
  password : String
  dbName : String
deriving DecidableEq, Repr

/-- Function `getDBConfig` (server.js lines 17–40), as a function of the SSM
response: collects the values by basename, then
`if (!params.host || !params.user || !params.password || !params.name)`
throws `Missing DB parameters in SSM`; otherwise returns the four values. -/
def getDBConfig (ps : List SSMParam) : Except String DBConfig :=
  let host := paramLookup "host" ps
  let user := paramLookup "user" ps
  let password := paramLookup "password" ps
  let nameVal := paramLookup "name" ps
  if !truthy host || !truthy user || !truthy password || !truthy nameVal then
    Except.error "Missing DB parameters in SSM"
  else
    Except.ok ⟨host.getD "", user.getD "", password.getD "", nameVal.getD ""⟩

/-! ## Schema initializer (`ensureDatabaseExists`, server.js lines 44–54) -/

/-- Events on the short-lived bootstrap connection. -/
inductive ConnEvent where
  | opened
  | queried
  | closed
deriving DecidableEq, Repr

/-- Outcomes of the two external driver calls made by
`ensureDatabaseExists`: whether `mysql.createConnection` succeeds and
whether the `CREATE DATABASE IF NOT EXISTS` query succeeds. -/
structure ConnOracle where
  connectOk : Bool
  queryOk : Bool
deriving DecidableEq, Repr

/-- Function `ensureDatabaseExists` (server.js lines 44–54). The source is a
straight-line `await createConnection; await conn.query(...); await
conn.end()` with no `try`/`finally`: if connecting fails nothing further
runs; if the query fails the error propagates and `conn.end()` is never
reached; only on full success is the connection closed. The returned trace
records what happened to the bootstrap connection. -/
def ensureDatabaseExists (o : ConnOracle) (cfg : DBConfig) :
    Except String Unit × List ConnEvent :=
  if !o.connectOk then
    (Except.error ("connection to " ++ cfg.host ++ " failed"), [])
  else if !o.queryOk then
    (Except.error "CREATE DATABASE failed", [ConnEvent.opened, ConnEvent.queried])
  else
    (Except.ok (), [ConnEvent.opened, ConnEvent.queried, ConnEvent.closed])

/-! ## Pool builder (`mysql.createPool`, server.js lines 65–72) -/

/-- The connection pool as configured by the source: credentials plus the
fixed policy of connection limit 10 and TLS with certificate validation
disabled (`rejectUnauthorized: false`). -/
structure Pool where
  host : String
  user : String
  password : String
  database : String
  connectionLimit : Nat
  sslRejectUnauthorized : Bool
deriving DecidableEq, Repr

/-- The `mysql.createPool` call of server.js lines 65–72. -/
def createPool (cfg : DBConfig) : Pool :=
  ⟨cfg.host, cfg.user, cfg.password, cfg.dbName, 10, false⟩

/-! ## Startup orchestrator (`connectWithRetry`, server.js lines 58–82) -/

/-- The external world one startup runs against: for each attempt index
`i`, the outcome of the SSM call made during attempt `i` and the behaviour
of the bootstrap connection opened during attempt `i`. -/
structure StartupWorld where
  ssm : Nat → Except String (List SSMParam)
  conn : Nat → ConnOracle

/-- The `getDBConfig()` call of attempt `i`: the SSM request itself may fail, or
its response is validated by `getDBConfig`. -/
def fetchAttempt (w : StartupWorld) (i : Nat) : Except String DBConfig :=
  match w.ssm i with
  | Except.error e => Except.error e
  | Except.ok ps => getDBConfig ps

/-- The body of one iteration of the retry loop (server.js lines 60–75):
`getDBConfig`, then `ensureDatabaseExists`, then `mysql.createPool`; the
first failure aborts the attempt. -/
def attemptOnce (w : StartupWorld) (i : Nat) : Except String Pool :=
  match fetchAttempt w i with
  | Except.error e => Except.error e
  | Except.ok cfg =>
    match (ensureDatabaseExists (w.conn i) cfg).1 with
    | Except.error e => Except.error e
    | Except.ok _ => Except.ok (createPool cfg)

/-- Observable events of the retry loop: attempt `i` invoking the
parameter fetcher afresh, and the fixed sleep between failed attempts. -/
inductive Event where
  | fetch (i : Nat)
  | sleep (ms : Nat)
deriving DecidableEq, Repr

/-- The retry loop of `connectWithRetry` (server.js lines 59–81), indexed
by the current attempt number `i` and the number of iterations still
allowed (`rem = retries - i + 1`). When the loop bound is exhausted the
`for` loop falls through and the function resolves with `undefined`
(`Except.ok none`). On success the pool is returned; on failure of the
last allowed attempt (`i === retries`, i.e. `rem = 1`) the error is
rethrown with no further sleep; otherwise the loop sleeps `delay` ms and
moves to attempt `i + 1`. -/
def runRetry (w : StartupWorld) (delay : Nat) :
    Nat → Nat → Except String (Option Pool) × List Event
  | _, 0 => (Except.ok none, [])
  | i, rem + 1 =>
    match attemptOnce w i with
    | Except.ok p => (Except.ok (some p), [Event.fetch i])
    | Except.error e =>
      if rem = 0 then
        (Except.error e, [Event.fetch i])
      else
        let rest := runRetry w delay (i + 1) rem
        (rest.1, Event.fetch i :: Event.sleep delay :: rest.2)

/-- Function `connectWithRetry(retries, delay)` (server.js lines 58–82): `retries`
is an integer: for `retries <= 0` the loop `for (let i = 1; i <= retries)`
never runs and the function resolves with `undefined`. -/
def connectWithRetry (w : StartupWorld) (retries : Int) (delay : Nat) :
    Except String (Option Pool) × List Event :=
  runRetry w delay 1 retries.toNat

/-- The default arguments of `connectWithRetry` at the call site of the
startup IIFE: `retries = 10`, `delay = 3000`. -/
def defaultRetries : Nat := 10

/-- Default fixed delay in milliseconds. -/
def defaultDelay : Nat := 3000

/-! ## Process entry point (startup IIFE, server.js lines 221–234) -/

/-- Outcome of the process after the startup IIFE has run: either the
server is listening on a port while owning the connection pool, or the
process exited with the given status code. -/
inductive ProcessOutcome where
  | serving (pool : Pool) (port : Nat)
  | exited (code : Nat)
deriving DecidableEq, Repr

/-- The startup IIFE (server.js lines 221–234): `db = await
connectWithRetry(); await ensureTables(db); app.listen(3500)`, with any
error caught and answered by `process.exit(1)`. `tablesOk` is the outcome
of the two idempotent `CREATE TABLE` statements of `ensureTables`. If
`connectWithRetry` resolved with `undefined` (impossible at the default
`retries = 10`), `ensureTables(undefined)` would throw, which the same
`catch` turns into `process.exit(1)`. -/
def startup (w : StartupWorld) (tablesOk : Bool) : ProcessOutcome :=
  match (connectWithRetry w defaultRetries defaultDelay).1 with
  | Except.error _ => ProcessOutcome.exited 1
  | Except.ok none => ProcessOutcome.exited 1
  | Except.ok (some p) =>
    if tablesOk then ProcessOutcome.serving p 3500 else ProcessOutcome.exited 1

/-! ## Observable lifecycle phases of the process

A finer-grained view of the same startup IIFE, used to reason about when
the server is listening relative to when the connection pool exists. The
source only calls `app.listen` after `connectWithRetry` has returned and
`ensureTables` has completed, so the phases a run passes through are:
`boot i` (inside attempt `i` of the retry loop, nothing listening),
`tableInit p` (pool obtained, `ensureTables` running), then either
`serving p` (listening on 3500) or `exited 1`. -/

/-- One observable phase of the process lifecycle. -/
inductive Phase where
  | boot (attempt : Nat)
  | tableInit (pool : Pool)
  | serving (pool : Pool)
  | exited (code : Nat)
deriving DecidableEq, Repr

/-- HTTP routes are reachable only while the server is listening, which
the source enters only via `app.listen` in the `serving` phase. -/
def listening : Phase → Bool
  | Phase.serving _ => true
  | _ => false

/-- Whether a connection pool exists in the given phase. -/
def poolExists : Phase → Bool
  | Phase.tableInit _ => true
  | Phase.serving _ => true
  | _ => false

/-- The sequence of phases the process passes through, mirroring
`runRetry`: attempt `i` either yields a pool (then table init, then
serving or exit depending on `tablesOk`) or fails (then either exit, if it
was the final attempt, or the next boot phase). -/
def phaseGo (w : StartupWorld) (tablesOk : Bool) :
    Nat → Nat → List Phase
  | _, 0 => []
  | i, rem + 1 =>
    Phase.boot i ::
      match attemptOnce w i with
      | Except.ok p =>
        [Phase.tableInit p,
         if tablesOk then Phase.serving p else Phase.exited 1]
      | Except.error _ =>
        if rem = 0 then [Phase.exited 1] else phaseGo w tablesOk (i + 1) rem

/-- The full phase trace of a process run at the default retry bound. -/
def phaseTrace (w : StartupWorld) (tablesOk : Bool) : List Phase :=
  phaseGo w tablesOk 1 defaultRetries

/-! ## Route handlers (server.js lines 113–217)

Each handler is a function of the request parameters, the relevant table
state and the outcome of its database statement. `res.json` without an
explicit status sends status 200. -/

/-- A row of the `student` table. -/
structure StudentRow where
  id : Nat
  name : String
  rollNumber : String
  cls : String
  createdAt : String
deriving DecidableEq, Repr

/-- A row of the `teacher` table. -/
structure TeacherRow where
  id : Nat
  name : String
  subject : String
  cls : String
  createdAt : String
deriving DecidableEq, Repr

/-- JSON serialization of a student row, column order of the table. -/
def studentToJson (r : StudentRow) : JVal :=
  JVal.obj [("id", JVal.num r.id), ("name", JVal.str r.name),
            ("roll_number", JVal.str r.rollNumber), ("class", JVal.str r.cls),
            ("created_at", JVal.str r.createdAt)]

/-- The rows produced by `SELECT * FROM student`, in table order. -/
def selectAllStudents (t : List StudentRow) : List JVal :=
  t.map studentToJson

/-- Handler of `GET /` (server.js lines 147–150): queries all student rows
and wraps them under a `data` field next to a greeting message. -/
def rootHandler (t : List StudentRow) : Response :=
  ⟨200, JVal.obj [("message", JVal.str "Backend running 🚀"),
                  ("data", JVal.arr (selectAllStudents t))]⟩

/-- Handler of `GET /student` (server.js lines 152–155): responds with the
student rows themselves. -/
def studentListHandler (t : List StudentRow) : Response :=
  ⟨200, JVal.arr (selectAllStudents t)⟩

/-- Handler of `GET /health` (server.js lines 113–119): unconditionally
responds 200 with status, service and uptime; it never touches `db`.
`uptime` stands for the value of `process.uptime()` at request time and
`dbOk` for whether the database is reachable — neither branch of the
handler consults `dbOk`. -/
def healthHandler (uptime : Nat) (_dbOk : Bool) : Response :=
  ⟨200, JVal.obj [("status", JVal.str "ok"), ("service", JVal.str "backend"),
                  ("uptime", JVal.num uptime)]⟩

/-- Optional JSON field: a field whose value comes from an environment
variable is dropped by JSON serialization when the variable is unset
(`undefined`). -/
def optField (key : String) : Option String → List (String × JVal)
  | none => []
  | some v => [(key, JVal.str v)]

/-- Handler of `GET /health/db` (server.js lines 122–143): on probe
success responds 200 with status, database, `host` and `database_name`
taken from the environment variables `host` and `database` (absent from
the body when unset), and `result` equal to the single row `SELECT 1 as
db_up` returns; on probe failure responds 500 with the error message. -/
def healthDbHandler (envHost envDatabase : Option String)
    (probe : Except String Unit) : Response :=
  match probe with
  | Except.ok _ =>
    ⟨200, JVal.obj ([("status", JVal.str "ok"),
                     ("database", JVal.str "connected")]
                    ++ optField "host" envHost
                    ++ optField "database_name" envDatabase
                    ++ [("result", JVal.obj [("db_up", JVal.num 1)])])⟩
  | Except.error msg =>
    ⟨500, JVal.obj [("status", JVal.str "error"),
                    ("database", JVal.str "down"),
                    ("error", JVal.str msg)]⟩

/-- Handler of `DELETE /student/:id` (server.js lines 179–197). `dbOk`
says whether the DELETE statement succeeds; on success `affectedRows` is
the number of rows whose id matched. Returns the response together with
the table state after the statement. -/
def deleteStudentHandler (dbOk : Bool) (t : List StudentRow) (i : Nat) :
    Response × List StudentRow :=
  if dbOk then
    let affected := t.countP (fun r => r.id == i)
    if affected == 0 then
      (⟨404, JVal.obj [("message", JVal.str "Student not found")]⟩, t)
    else
      (⟨200, JVal.obj [("message", JVal.str "Student deleted successfully")]⟩,
       t.filter (fun r => r.id != i))
  else
    (⟨500, JVal.obj [("error", JVal.str "Failed to delete student")]⟩, t)

/-- Handler of `DELETE /teacher/:id` (server.js lines 199–217), the same
shape over the teacher table. -/
def deleteTeacherHandler (dbOk : Bool) (t : List TeacherRow) (i : Nat) :
    Response × List TeacherRow :=
  if dbOk then
    let affected := t.countP (fun r => r.id == i)
    if affected == 0 then
      (⟨404, JVal.obj [("message", JVal.str "Teacher not found")]⟩, t)
    else
      (⟨200, JVal.obj [("message", JVal.str "Teacher deleted successfully")]⟩,
       t.filter (fun r => r.id != i))
  else
    (⟨500, JVal.obj [("error", JVal.str "Failed to delete teacher")]⟩, t)

/-! ## Trace helpers and concrete worlds -/

/-- The events emitted by `k` consecutive failed attempts starting at
attempt `i`: each failed non-final attempt fetches configuration and then
sleeps the fixed delay. -/
def retryPrefixTrace (delay : Nat) : Nat → Nat → List Event
  | _, 0 => []
  | i, k + 1 =>
    Event.fetch i :: Event.sleep delay :: retryPrefixTrace delay (i + 1) k

/-- The sleep durations occurring in a retry trace, in order. -/
def sleepsIn (tr : List Event) : List Nat :=
  tr.filterMap (fun e => match e with | Event.sleep ms => some ms | _ => none)

/-- The attempt indices whose configuration fetch occurs in a retry trace,
in order. -/
def fetchesIn (tr : List Event) : List Nat :=
  tr.filterMap (fun e => match e with | Event.fetch i => some i | _ => none)

/-- An SSM value that is absent from the response or present with the
empty string — what the source treats as a missing parameter. -/
def missingOrEmpty (o : Option String) : Prop :=
  o = none ∨ o = some ""

/-- A well-formed SSM response whose host value varies with the attempt
index, so that the configuration of different attempts is distinguishable. -/
def scenarioParams (i : Nat) : List SSMParam :=
  [⟨"/myapp/db/host", "h" ++ toString i⟩, ⟨"/myapp/db/user", "u"⟩,
   ⟨"/myapp/db/password", "p"⟩, ⟨"/myapp/db/name", "d"⟩]

/-- A world in which attempts 1–3 fail (the bootstrap connection cannot be
opened) and every later attempt succeeds. -/
def wScenario : StartupWorld :=
  ⟨fun i => Except.ok (scenarioParams i),
   fun i => if i ≤ 3 then ⟨false, true⟩ else ⟨true, true⟩⟩

/-- A world in which every attempt fails: the parameter store is
unreachable. -/
def wAllFail : StartupWorld :=
  ⟨fun _ => Except.error "SSM unreachable", fun _ => ⟨true, true⟩⟩

/-- A world in which the first attempt already succeeds. -/
def wImmediate : StartupWorld :=
  ⟨fun i => Except.ok (scenarioParams i), fun _ => ⟨true, true⟩⟩

/-- The SSM response of the spec scenario: well-formed except that the
`name` parameter is present with the empty string. -/
def emptyNameParams : List SSMParam :=
  [⟨"/myapp/db/host", "h"⟩, ⟨"/myapp/db/user", "u"⟩,
   ⟨"/myapp/db/password", "p"⟩, ⟨"/myapp/db/name", ""⟩]

/-- The configuration attempt `i` obtains in the scenario worlds. -/
def cfgAt (i : Nat) : DBConfig :=
  ⟨"h" ++ toString i, "u", "p", "d"⟩

/-! # Helper lemmas -/

theorem connectWithRetry_natCast (w : StartupWorld) (r d : Nat) :
    connectWithRetry w (r : Int) d = runRetry w d 1 r := rfl

theorem attemptOnce_not_ok {w : StartupWorld} {i : Nat}
    (h : (attemptOnce w i).isOk = false) :
    ∃ e, attemptOnce w i = Except.error e := by
  cases ha : attemptOnce w i with
  | ok p => rw [ha] at h; simp [Except.isOk, Except.toBool] at h
  | error e => exact ⟨e, rfl⟩

theorem sleepsIn_retryPrefixTrace (delay : Nat) :
    ∀ (k i : Nat), sleepsIn (retryPrefixTrace delay i k) = List.replicate k delay := by
  intro k
  induction k with
  | zero => intro i; rfl
  | succ n ih =>
    intro i
    show sleepsIn (Event.fetch i :: Event.sleep delay :: retryPrefixTrace delay (i + 1) n)
        = List.replicate (n + 1) delay
    simp only [sleepsIn, List.filterMap_cons, List.replicate_succ]
    exact congrArg (delay :: ·) (ih (i + 1))

theorem fetchesIn_retryPrefixTrace (delay : Nat) :
    ∀ (k i : Nat), fetchesIn (retryPrefixTrace delay i k) = List.range' i k := by
  intro k
  induction k with
  | zero => intro i; rfl
  | succ n ih =>
    intro i
    show fetchesIn (Event.fetch i :: Event.sleep delay :: retryPrefixTrace delay (i + 1) n)
        = List.range' i (n + 1)
    simp only [fetchesIn, List.filterMap_cons, List.range']
    exact congrArg (i :: ·) (ih (i + 1))

theorem runRetry_cons (w : StartupWorld) (delay i rem : Nat) (e : String)
    (h : attemptOnce w i = Except.error e) (hrem : ¬ rem = 0) :
    runRetry w delay i (rem + 1) =
      ((runRetry w delay (i + 1) rem).1,
       Event.fetch i :: Event.sleep delay :: (runRetry w delay (i + 1) rem).2) := by
  simp [runRetry, h, hrem]

theorem runRetry_success (w : StartupWorld) (delay : Nat) :
    ∀ (k i rem : Nat) (p : Pool), k < rem →
    (∀ j, i ≤ j → j < i + k → (attemptOnce w j).isOk = false) →
    attemptOnce w (i + k) = Except.ok p →
    runRetry w delay i rem =
      (Except.ok (some p), retryPrefixTrace delay i k ++ [Event.fetch (i + k)]) := by
  intro k
  induction k with
  | zero =>
    intro i rem p hk hfail hsucc
    obtain ⟨rem', rfl⟩ : ∃ rem', rem = rem' + 1 := ⟨rem - 1, by omega⟩
    rw [Nat.add_zero] at hsucc
    simp [runRetry, hsucc, retryPrefixTrace]
  | succ n ih =>
    intro i rem p hk hfail hsucc
    obtain ⟨rem', rfl⟩ : ∃ rem', rem = rem' + 1 := ⟨rem - 1, by omega⟩
    obtain ⟨e, he⟩ := attemptOnce_not_ok (hfail i le_rfl (by omega))
    have hrem' : ¬ rem' = 0 := by omega
    have hrec := ih (i + 1) rem' p (by omega)
      (fun j hj1 hj2 => hfail j (by omega) (by omega))
      (by rw [show i + 1 + n = i + (n + 1) by omega]; exact hsucc)
    rw [runRetry_cons w delay i rem' e he hrem', hrec,
      show i + (n + 1) = i + 1 + n by omega]
    rfl

theorem runRetry_allFail (w : StartupWorld) (delay : Nat) :
    ∀ (k i : Nat) (e : String),
    (∀ j, i ≤ j → j < i + k → (attemptOnce w j).isOk = false) →
    attemptOnce w (i + k) = Except.error e →
    runRetry w delay i (k + 1) =
      (Except.error e, retryPrefixTrace delay i k ++ [Event.fetch (i + k)]) := by
  intro k
  induction k with
  | zero =>
    intro i e hfail hlast
    rw [Nat.add_zero] at hlast
    simp [runRetry, hlast, retryPrefixTrace]
  | succ n ih =>
    intro i e hfail hlast
    obtain ⟨e', he'⟩ := attemptOnce_not_ok (hfail i le_rfl (by omega))
    have hrec := ih (i + 1) e
      (fun j hj1 hj2 => hfail j (by omega) (by omega))
      (by rw [show i + 1 + n = i + (n + 1) by omega]; exact hlast)
    rw [runRetry_cons w delay i (n + 1) e' he' (by omega), hrec,
      show i + (n + 1) = i + 1 + n by omega]
    rfl

theorem runRetry_ne_none (w : StartupWorld) (delay : Nat) :
    ∀ (rem i : Nat), 1 ≤ rem → (runRetry w delay i rem).1 ≠ Except.ok none := by
  intro rem
  induction rem with
  | zero => intro i h; exact absurd h (by omega)
  | succ n ih =>
    intro i _
    cases ha : attemptOnce w i with
    | ok p => simp [runRetry, ha]
    | error e =>
      by_cases hn : n = 0
      · subst hn; simp [runRetry, ha]
      · simpa [runRetry, ha, hn] using ih (i + 1) (by omega)

theorem phaseGo_serving_sound (w : StartupWorld) (tablesOk : Bool) (delay : Nat) :
    ∀ (rem i : Nat) (p : Pool), Phase.serving p ∈ phaseGo w tablesOk i rem →
    (runRetry w delay i rem).1 = Except.ok (some p) ∧ tablesOk = true := by
  intro rem
  induction rem with
  | zero => intro i p h; simp [phaseGo] at h
  | succ n ih =>
    intro i p h
    cases ha : attemptOnce w i with
    | ok q =>
      rw [phaseGo, ha] at h
      cases tablesOk with
      | true =>
        simp at h
        subst h
        exact ⟨by simp [runRetry, ha], rfl⟩
      | false => simp at h
    | error e =>
      rw [phaseGo, ha] at h
      by_cases hn : n = 0
      · subst hn; simp at h
      · rw [if_neg hn] at h
        simp at h
        obtain ⟨h1, h2⟩ := ih (i + 1) p h
        exact ⟨by simpa [runRetry, ha, hn] using h1, h2⟩

/-! # Claim theorems -/

/-- C1 counterexample: when the `CREATE DATABASE` statement fails, the
Schema Initializer propagates the error with the bootstrap connection
still open — the connection is NOT released on this exit path. -/
theorem ensureDatabaseExists_statement_failure_leaks_connection :
    ConnEvent.opened ∈ (ensureDatabaseExists ⟨true, false⟩ ⟨"h", "u", "p", "d"⟩).2 ∧
    ConnEvent.closed ∉ (ensureDatabaseExists ⟨true, false⟩ ⟨"h", "u", "p", "d"⟩).2 ∧
    (ensureDatabaseExists ⟨true, false⟩ ⟨"h", "u", "p", "d"⟩).1 =
      Except.error "CREATE DATABASE failed" :=
  ⟨by decide, by decide, rfl⟩

/-- C1 amended: the bootstrap connection is released exactly when the
create-database statement succeeds; when the connection opens but the
statement fails, the error propagates with the connection left open. -/
theorem ensureDatabaseExists_release_iff_success (o : ConnOracle) (cfg : DBConfig) :
    (ConnEvent.closed ∈ (ensureDatabaseExists o cfg).2 ↔
      (ensureDatabaseExists o cfg).1 = Except.ok ()) ∧
    (o.connectOk = true → o.queryOk = false →
      ConnEvent.opened ∈ (ensureDatabaseExists o cfg).2 ∧
      ConnEvent.closed ∉ (ensureDatabaseExists o cfg).2) := by
  obtain ⟨c, q⟩ := o
  cases c <;> cases q <;> simp [ensureDatabaseExists]

/-- Witness for the amended C1 theorem at concrete oracles. -/
theorem ensureDatabaseExists_release_iff_success_witness :
    (ConnEvent.closed ∈ (ensureDatabaseExists ⟨true, true⟩ ⟨"h", "u", "p", "d"⟩).2 ↔
      (ensureDatabaseExists ⟨true, true⟩ ⟨"h", "u", "p", "d"⟩).1 = Except.ok ()) ∧
    (ConnEvent.opened ∈ (ensureDatabaseExists ⟨true, false⟩ ⟨"h", "u", "x", "d"⟩).2 ∧
      ConnEvent.closed ∉ (ensureDatabaseExists ⟨true, false⟩ ⟨"h", "u", "x", "d"⟩).2) :=
  ⟨(ensureDatabaseExists_release_iff_success ⟨true, true⟩ ⟨"h", "u", "p", "d"⟩).1,
   (ensureDatabaseExists_release_iff_success ⟨true, false⟩ ⟨"h", "u", "x", "d"⟩).2 rfl rfl⟩

/-- C4: whenever any of the four required parameters is absent from the
SSM response or present as the empty string, `getDBConfig` throws the
`Missing DB parameters in SSM` error instead of returning a configuration. -/
theorem getDBConfig_rejects_missing (ps : List SSMParam)
    (h : missingOrEmpty (paramLookup "host" ps) ∨ missingOrEmpty (paramLookup "user" ps) ∨
      missingOrEmpty (paramLookup "password" ps) ∨ missingOrEmpty (paramLookup "name" ps)) :
    getDBConfig ps = Except.error "Missing DB parameters in SSM" := by
  have ht : ∀ o : Option String, missingOrEmpty o → truthy o = false := by
    rintro o (rfl | rfl) <;> rfl
  unfold getDBConfig
  rcases h with h | h | h | h <;> simp [ht _ h]

/-- Witness for C4 at the spec scenario: host `h`, user `u`, password
`p`, name the empty string — the empty name is treated as missing. -/
theorem getDBConfig_rejects_missing_witness :
    missingOrEmpty (paramLookup "name" emptyNameParams) ∧
    getDBConfig emptyNameParams = Except.error "Missing DB parameters in SSM" :=
  ⟨Or.inr rfl,
   getDBConfig_rejects_missing emptyNameParams (Or.inr (Or.inr (Or.inr (Or.inr rfl))))⟩

/-- C2: if attempts 1..k fail and attempt k+1 succeeds within the retry
bound, the orchestrator returns the pool of that attempt, the trace is exactly
k blocks of fetch-then-sleep followed by the final fetch — so exactly k
sleeps of the fixed delay each, one configuration fetch per attempt
(indices 1..k+1, never reusing an earlier fetch) — and the pool is built
from the configuration fetched during the succeeding attempt. -/
theorem connectWithRetry_retry_behaviour (w : StartupWorld) (retries : Int)
    (delay k : Nat) (p : Pool)
    (hk : (k : Int) + 1 ≤ retries)
    (hfail : ∀ j, 1 ≤ j → j ≤ k → (attemptOnce w j).isOk = false)
    (hsucc : attemptOnce w (k + 1) = Except.ok p) :
    connectWithRetry w retries delay =
      (Except.ok (some p), retryPrefixTrace delay 1 k ++ [Event.fetch (k + 1)]) ∧
    sleepsIn (connectWithRetry w retries delay).2 = List.replicate k delay ∧
    fetchesIn (connectWithRetry w retries delay).2 = List.range' 1 (k + 1) ∧
    ∃ cfg, fetchAttempt w (k + 1) = Except.ok cfg ∧ p = createPool cfg := by
  have htn : retries.toNat = retries.toNat - (k + 1) + (k + 1) := by omega
  have hmain : runRetry w delay 1 retries.toNat =
      (Except.ok (some p), retryPrefixTrace delay 1 k ++ [Event.fetch (1 + k)]) :=
    runRetry_success w delay k 1 retries.toNat p (by omega)
      (fun j h1 h2 => hfail j h1 (by omega))
      (by rw [show 1 + k = k + 1 by omega]; exact hsucc)
  have hconn : connectWithRetry w retries delay =
      (Except.ok (some p), retryPrefixTrace delay 1 k ++ [Event.fetch (k + 1)]) := by
    show runRetry w delay 1 retries.toNat = _
    rw [hmain, show 1 + k = k + 1 by omega]
  refine ⟨hconn, ?_, ?_, ?_⟩
  · rw [hconn]
    show sleepsIn (retryPrefixTrace delay 1 k ++ [Event.fetch (k + 1)]) = _
    rw [show sleepsIn (retryPrefixTrace delay 1 k ++ [Event.fetch (k + 1)])
          = sleepsIn (retryPrefixTrace delay 1 k) ++ sleepsIn [Event.fetch (k + 1)]
        from List.filterMap_append _ _ _,
      sleepsIn_retryPrefixTrace delay k 1]
    simp [sleepsIn]
  · rw [hconn]
    show fetchesIn (retryPrefixTrace delay 1 k ++ [Event.fetch (k + 1)]) = _
    rw [show fetchesIn (retryPrefixTrace delay 1 k ++ [Event.fetch (k + 1)])
          = fetchesIn (retryPrefixTrace delay 1 k) ++ fetchesIn [Event.fetch (k + 1)]
        from List.filterMap_append _ _ _,
      fetchesIn_retryPrefixTrace delay k 1, List.range'_concat 1 k,
      show 1 + 1 * k = k + 1 by omega]
    rfl
  · have h2 := hsucc
    unfold attemptOnce at h2
    cases hf : fetchAttempt w (k + 1) with
    | error e => rw [hf] at h2; simp at h2
    | ok cfg =>
      rw [hf] at h2
      cases he : (ensureDatabaseExists (w.conn (k + 1)) cfg).1 with
      | error e => simp [he] at h2
      | ok u =>
        simp [he] at h2
        exact ⟨cfg, rfl, h2.symm⟩

/-- C2 witness: in the scenario world attempts 1–3 fail with transient
connection errors and attempt 4 succeeds; the orchestrator returns the
pool built from the attempt-4 configuration after exactly 3 sleeps of
3000 ms, having fetched configuration afresh on each of the 4 attempts. -/
theorem connectWithRetry_retry_behaviour_witness :
    connectWithRetry wScenario 10 3000 =
      (Except.ok (some (createPool (cfgAt 4))),
       [Event.fetch 1, Event.sleep 3000, Event.fetch 2, Event.sleep 3000,
        Event.fetch 3, Event.sleep 3000, Event.fetch 4]) ∧
    sleepsIn (connectWithRetry wScenario 10 3000).2 = [3000, 3000, 3000] ∧
    fetchesIn (connectWithRetry wScenario 10 3000).2 = [1, 2, 3, 4] ∧
    fetchAttempt wScenario 4 = Except.ok (cfgAt 4) := by
  have h := connectWithRetry_retry_behaviour wScenario 10 3000 3 (createPool (cfgAt 4))
    (by decide)
    (by intro j h1 h2; interval_cases j <;> rfl)
    (by rfl)
  exact ⟨h.1, h.2.1, h.2.2.1, by rfl⟩

/-- C3: if every attempt up to the bound N = k+1 fails, the orchestrator
propagates the error of the final attempt; the trace shows k sleeps (none after
the final attempt) and configuration fetches for attempts 1..k+1 only (no
further attempt is started); at the default bound N = 10 the startup IIFE
exits the process with status 1. -/
theorem connectWithRetry_final_failure (w : StartupWorld) (delay k : Nat)
    (e : String) (tablesOk : Bool)
    (hfail : ∀ j, 1 ≤ j → j ≤ k + 1 → (attemptOnce w j).isOk = false)
    (hlast : attemptOnce w (k + 1) = Except.error e) :
    connectWithRetry w ((k : Int) + 1) delay =
      (Except.error e, retryPrefixTrace delay 1 k ++ [Event.fetch (k + 1)]) ∧
    sleepsIn (connectWithRetry w ((k : Int) + 1) delay).2 = List.replicate k delay ∧
    fetchesIn (connectWithRetry w ((k : Int) + 1) delay).2 = List.range' 1 (k + 1) ∧
    (k + 1 = defaultRetries → startup w tablesOk = ProcessOutcome.exited 1) := by
  have htn : ((k : Int) + 1).toNat = k + 1 := by omega
  have hmain := runRetry_allFail w delay k 1 e
    (fun j h1 h2 => hfail j h1 (by omega))
    (by rw [show 1 + k = k + 1 by omega]; exact hlast)
  have hconn : connectWithRetry w ((k : Int) + 1) delay =
      (Except.error e, retryPrefixTrace delay 1 k ++ [Event.fetch (k + 1)]) := by
    show runRetry w delay 1 ((k : Int) + 1).toNat = _
    rw [htn, hmain, show 1 + k = k + 1 by omega]
  refine ⟨hconn, ?_, ?_, ?_⟩
  · rw [hconn]
    show sleepsIn (retryPrefixTrace delay 1 k ++ [Event.fetch (k + 1)]) = _
    rw [show sleepsIn (retryPrefixTrace delay 1 k ++ [Event.fetch (k + 1)])
          = sleepsIn (retryPrefixTrace delay 1 k) ++ sleepsIn [Event.fetch (k + 1)]
        from List.filterMap_append _ _ _,
      sleepsIn_retryPrefixTrace delay k 1]
    simp [sleepsIn]
  · rw [hconn]
    show fetchesIn (retryPrefixTrace delay 1 k ++ [Event.fetch (k + 1)]) = _
    rw [show fetchesIn (retryPrefixTrace delay 1 k ++ [Event.fetch (k + 1)])
          = fetchesIn (retryPrefixTrace delay 1 k) ++ fetchesIn [Event.fetch (k + 1)]
        from List.filterMap_append _ _ _,
      fetchesIn_retryPrefixTrace delay k 1, List.range'_concat 1 k,
      show 1 + 1 * k = k + 1 by omega]
    rfl
  · intro hN
    have hmain10 := runRetry_allFail w defaultDelay k 1 e
      (fun j h1 h2 => hfail j h1 (by omega))
      (by rw [show 1 + k = k + 1 by omega]; exact hlast)
    unfold startup
    rw [connectWithRetry_natCast w defaultRetries defaultDelay, ← hN, hmain10]

/-- C3 witness: with the parameter store unreachable for all 10 default
attempts, the orchestrator fails with the final error after fetches 1..10
and 9 intermediate sleeps, and the process exits with status 1. -/
theorem connectWithRetry_final_failure_witness :
    connectWithRetry wAllFail 10 3000 =
      (Except.error "SSM unreachable",
       [Event.fetch 1, Event.sleep 3000, Event.fetch 2, Event.sleep 3000,
        Event.fetch 3, Event.sleep 3000, Event.fetch 4, Event.sleep 3000,
        Event.fetch 5, Event.sleep 3000, Event.fetch 6, Event.sleep 3000,
        Event.fetch 7, Event.sleep 3000, Event.fetch 8, Event.sleep 3000,
        Event.fetch 9, Event.sleep 3000, Event.fetch 10]) ∧
    startup wAllFail true = ProcessOutcome.exited 1 := by
  have h := connectWithRetry_final_failure wAllFail 3000 9 "SSM unreachable" true
    (fun j h1 h2 => rfl) rfl
  exact ⟨h.1, h.2.2.2 rfl⟩

/-- C10: calling `connectWithRetry` with a non-positive retry bound skips
the loop entirely and resolves with `undefined` — neither a pool nor an
error — while any positive bound can never resolve with `undefined`, so
the pool-or-fatal-error outcome needs the precondition `retries >= 1`. -/
theorem connectWithRetry_nonpositive_retries (w : StartupWorld) (retries : Int)
    (delay : Nat) :
    (retries ≤ 0 → connectWithRetry w retries delay = (Except.ok none, [])) ∧
    (1 ≤ retries → (connectWithRetry w retries delay).1 ≠ Except.ok none) := by
  constructor
  · intro h
    have h0 : retries.toNat = 0 := by omega
    show runRetry w delay 1 retries.toNat = _
    rw [h0, show runRetry w delay 1 0 = (Except.ok none, []) from rfl]
  · intro h
    exact runRetry_ne_none w delay retries.toNat 1 (by omega)

/-- C10 witness at a negative and at the default retry bound. -/
theorem connectWithRetry_nonpositive_retries_witness :
    connectWithRetry wImmediate (-2) 3000 = (Except.ok none, []) ∧
    (connectWithRetry wImmediate 10 3000).1 ≠ Except.ok none :=
  ⟨(connectWithRetry_nonpositive_retries wImmediate (-2) 3000).1 (by decide),
   (connectWithRetry_nonpositive_retries wImmediate 10 3000).2 (by decide)⟩

/-- C5: exactly-one-pool invariant — a serving phase is reached only when
the orchestrator has returned that pool and table initialization has
completed; the pool in the serving phase is unique; if startup fails no
serving phase is ever reached; and no phase is listening without a pool. -/
theorem no_serving_without_pool (w : StartupWorld) (tablesOk : Bool) :
    (∀ p, Phase.serving p ∈ phaseTrace w tablesOk →
      (connectWithRetry w (defaultRetries : Int) defaultDelay).1 = Except.ok (some p) ∧
      tablesOk = true ∧ startup w tablesOk = ProcessOutcome.serving p 3500) ∧
    (∀ p q, Phase.serving p ∈ phaseTrace w tablesOk →
      Phase.serving q ∈ phaseTrace w tablesOk → p = q) ∧
    (∀ e, (connectWithRetry w (defaultRetries : Int) defaultDelay).1 = Except.error e →
      ∀ p, Phase.serving p ∉ phaseTrace w tablesOk) ∧
    (∀ ph, ph ∈ phaseTrace w tablesOk → listening ph = true → poolExists ph = true) := by
  have key : ∀ p, Phase.serving p ∈ phaseTrace w tablesOk →
      (connectWithRetry w (defaultRetries : Int) defaultDelay).1 = Except.ok (some p) ∧
      tablesOk = true :=
    fun p h => phaseGo_serving_sound w tablesOk defaultDelay defaultRetries 1 p h
  refine ⟨?_, ?_, ?_, ?_⟩
  · intro p h
    obtain ⟨h1, h2⟩ := key p h
    refine ⟨h1, h2, ?_⟩
    unfold startup
    rw [h1]
    simp [h2]
  · intro p q hp hq
    have h := ((key p hp).1).symm.trans (key q hq).1
    simpa using h
  · intro e he p hp
    have h := (key p hp).1
    rw [he] at h
    simp at h
  · intro ph _ hl
    cases ph <;> simp [listening, poolExists] at hl ⊢

/-- Witness for C5 at a world whose first attempt succeeds. -/
theorem no_serving_without_pool_witness :
    Phase.serving (createPool (cfgAt 1)) ∈ phaseTrace wImmediate true ∧
    (connectWithRetry wImmediate (defaultRetries : Int) defaultDelay).1 =
      Except.ok (some (createPool (cfgAt 1))) ∧
    startup wImmediate true = ProcessOutcome.serving (createPool (cfgAt 1)) 3500 := by
  have h := (no_serving_without_pool wImmediate true).1 (createPool (cfgAt 1)) (by decide)
  exact ⟨by decide, h.1, h.2.2⟩

/-- C7 counterexample: the health endpoint is NOT available before the
pool exists — in a successful run no lifecycle phase is listening without
a pool, and in a run whose startup fails no phase is ever listening. -/
theorem health_not_available_before_pool :
    (¬ ∃ ph ∈ phaseTrace wImmediate true, listening ph = true ∧ poolExists ph = false) ∧
    (∀ ph ∈ phaseTrace wAllFail true, listening ph = false) := by
  decide

/-- C7 amended: the `GET /health` handler answers 200 with status,
service and uptime on every request, never consulting the database or the
pool; but the endpoint only becomes reachable once the server listens,
which happens only in phases where the pool already exists. -/
theorem health_always_ok_once_listening (w : StartupWorld) (tablesOk : Bool)
    (uptime : Nat) (dbOk : Bool) :
    healthHandler uptime dbOk =
      ⟨200, JVal.obj [("status", JVal.str "ok"), ("service", JVal.str "backend"),
                      ("uptime", JVal.num uptime)]⟩ ∧
    healthHandler uptime dbOk = healthHandler uptime true ∧
    (∀ ph, ph ∈ phaseTrace w tablesOk → listening ph = true → poolExists ph = true) := by
  refine ⟨rfl, rfl, ?_⟩
  intro ph _ hl
  cases ph <;> simp [listening, poolExists] at hl ⊢

/-- Witness for the amended C7 theorem. -/
theorem health_always_ok_once_listening_witness :
    healthHandler 7 false =
      ⟨200, JVal.obj [("status", JVal.str "ok"), ("service", JVal.str "backend"),
                      ("uptime", JVal.num 7)]⟩ ∧
    poolExists (Phase.serving (createPool (cfgAt 1))) = true := by
  have h := health_always_ok_once_listening wImmediate true 7 false
  exact ⟨h.1, h.2.2 (Phase.serving (createPool (cfgAt 1))) (by decide) rfl⟩

/-- C8 counterexample: when the environment variable `host` is set, the
success body of `GET /health/db` carries an extra `host` field, so the
response body is not the three-field object the claim states. -/
theorem healthDb_success_body_not_exact :
    healthDbHandler (some "10.0.0.5") none (Except.ok ()) ≠
      ⟨200, JVal.obj [("status", JVal.str "ok"), ("database", JVal.str "connected"),
                      ("result", JVal.obj [("db_up", JVal.num 1)])]⟩ := by
  intro h
  have h2 : (healthDbHandler (some "10.0.0.5") none (Except.ok ())).body.getField "host"
      = none := by rw [h]; rfl
  exact Option.noConfusion ((rfl :
    (healthDbHandler (some "10.0.0.5") none (Except.ok ())).body.getField "host"
      = some (JVal.str "10.0.0.5")).symm.trans h2)

/-- C8 amended: on probe failure the response is 500 with status, database
`down` and the error message, exactly as claimed; on probe success the
response is 200 and its body holds the claimed `status`, `database` and
`result` fields plus `host` and `database_name` fields mirroring the
process environment variables `host` and `database`, which are absent
exactly when those variables are unset — so the body equals the claimed
three-field object precisely when both variables are unset. -/
theorem healthDb_route_spec (envHost envDatabase : Option String) (msg : String) :
    healthDbHandler envHost envDatabase (Except.error msg) =
      ⟨500, JVal.obj [("status", JVal.str "error"), ("database", JVal.str "down"),
                      ("error", JVal.str msg)]⟩ ∧
    (healthDbHandler envHost envDatabase (Except.ok ())).status = 200 ∧
    (healthDbHandler envHost envDatabase (Except.ok ())).body =
      JVal.obj ([("status", JVal.str "ok"), ("database", JVal.str "connected")]
        ++ optField "host" envHost ++ optField "database_name" envDatabase
        ++ [("result", JVal.obj [("db_up", JVal.num 1)])]) ∧
    (envHost = none → envDatabase = none →
      healthDbHandler envHost envDatabase (Except.ok ()) =
        ⟨200, JVal.obj [("status", JVal.str "ok"), ("database", JVal.str "connected"),
                        ("result", JVal.obj [("db_up", JVal.num 1)])]⟩) := by
  refine ⟨rfl, rfl, rfl, ?_⟩
  rintro rfl rfl
  rfl

/-- Witness for the amended C8 theorem with both variables unset. -/
theorem healthDb_route_spec_witness :
    healthDbHandler none none (Except.ok ()) =
      ⟨200, JVal.obj [("status", JVal.str "ok"), ("database", JVal.str "connected"),
                      ("result", JVal.obj [("db_up", JVal.num 1)])]⟩ ∧
    healthDbHandler none none (Except.error "connect ECONNREFUSED") =
      ⟨500, JVal.obj [("status", JVal.str "error"), ("database", JVal.str "down"),
                      ("error", JVal.str "connect ECONNREFUSED")]⟩ :=
  ⟨(healthDb_route_spec none none "connect ECONNREFUSED").2.2.2 rfl rfl,
   (healthDb_route_spec none none "connect ECONNREFUSED").1⟩

/-- C9: `GET /` and `GET /student` run the same query over the student
table: for every table state, the `data` field of the root response is
exactly the body of the `GET /student` response — the same rows. -/
theorem root_and_student_same_rows (t : List StudentRow) :
    (studentListHandler t).body = JVal.arr (selectAllStudents t) ∧
    (rootHandler t).body.getField "data" = some (JVal.arr (selectAllStudents t)) ∧
    (rootHandler t).body.getField "data" = some (studentListHandler t).body :=
  ⟨rfl, rfl, rfl⟩

/-- C6: the delete routes answer 200 when the statement matched (and so
removed) a row, 404 with the claimed message when no row matched, and 500
when the statement errors — for students and teachers alike. -/
theorem delete_routes_statuses (ts : List StudentRow) (tt : List TeacherRow) (i : Nat) :
    (0 < ts.countP (fun r => r.id == i) → (deleteStudentHandler true ts i).1.status = 200) ∧
    (ts.countP (fun r => r.id == i) = 0 → (deleteStudentHandler true ts i).1 =
      ⟨404, JVal.obj [("message", JVal.str "Student not found")]⟩) ∧
    (deleteStudentHandler false ts i).1.status = 500 ∧
    (0 < tt.countP (fun r => r.id == i) → (deleteTeacherHandler true tt i).1.status = 200) ∧
    (tt.countP (fun r => r.id == i) = 0 → (deleteTeacherHandler true tt i).1 =
      ⟨404, JVal.obj [("message", JVal.str "Teacher not found")]⟩) ∧
    (deleteTeacherHandler false tt i).1.status = 500 := by
  refine ⟨?_, ?_, rfl, ?_, ?_, rfl⟩
  · intro h
    have hne : (ts.countP (fun r => r.id == i) == 0) = false := by
      simp only [beq_eq_false_iff_ne, ne_eq]
      omega
    simp [deleteStudentHandler, hne]
  · intro h
    simp [deleteStudentHandler, h]
  · intro h
    have hne : (tt.countP (fun r => r.id == i) == 0) = false := by
      simp only [beq_eq_false_iff_ne, ne_eq]
      omega
    simp [deleteTeacherHandler, hne]
  · intro h
    simp [deleteTeacherHandler, h]

/-- Witness for C6 at concrete tables and ids. -/
theorem delete_routes_statuses_witness :
    (deleteStudentHandler true [⟨1, "Alice", "A1", "5A", "t0"⟩] 1).1.status = 200 ∧
    (deleteStudentHandler true [] 999).1 =
      ⟨404, JVal.obj [("message", JVal.str "Student not found")]⟩ ∧
    (deleteStudentHandler false [] 1).1.status = 500 ∧
    (deleteTeacherHandler true [⟨2, "Bob", "Math", "5A", "t0"⟩] 2).1.status = 200 ∧
    (deleteTeacherHandler true [] 999).1 =
      ⟨404, JVal.obj [("message", JVal.str "Teacher not found")]⟩ ∧
    (deleteTeacherHandler false [] 1).1.status = 500 :=
  ⟨(delete_routes_statuses [⟨1, "Alice", "A1", "5A", "t0"⟩] [] 1).1 (by decide),
   (delete_routes_statuses [] [] 999).2.1 rfl,
   (delete_routes_statuses [] [] 1).2.2.1,
   (delete_routes_statuses [] [⟨2, "Bob", "Math", "5A", "t0"⟩] 2).2.2.2.1 (by decide),
   (delete_routes_statuses [] [] 999).2.2.2.2.1 rfl,
   (delete_routes_statuses [] [] 1).2.2.2.2.2⟩
